import Mathlib

/-!
Verification of the schedule-generation core of the AIM-20 study-planner
(app/ai/schedule_generator.py, class SmartScheduleGenerator).

Shallow embedding conventions:
* Times are minutes from midnight of the target day (a Nat).
* Calendar dates are day ordinals (an Int); a difference of day ordinals is
  the number of days between the dates, matching (d1 - d2).days in Python.
* Python float arithmetic in this module only ever multiplies an integer
  number of minutes by a decimal constant with at most two fractional
  digits, so every intermediate value is an exact multiple of 1/100 (a
  multiple of 1/10 after the first factor, of 1/100 after the second);
  those values are represented exactly as Int counts of hundredths
  (or tenths, where noted), and int() truncation becomes Int division by
  the scale.
* Database rows are plain structures; the optional columns are Option.
* Exceptions caught by the source (external generator failures, JSON parse
  errors) are modelled as Option/Bool inputs at the point of the catch.
-/

namespace AIM20

/-- Pomodoro configuration, the UserSettings columns read by the generator
(pomodoro_work_duration, pomodoro_break_duration, long_break_duration,
sessions_until_long_break). The database defaults are 25/5/15/4. -/
structure Cfg where
  pomodoro_work_duration : Nat
  pomodoro_break_duration : Nat
  long_break_duration : Nat
  sessions_until_long_break : Nat
deriving DecidableEq

/-- The UserSettings defaults (25, 5, 15, 4). -/
def default_cfg : Cfg := ⟨25, 5, 15, 4⟩

/-- A Task row as read by the scheduler: id, priority string
("low"/"medium"/"high"), optional category, optional due date (day
ordinal), optional estimated_duration in minutes, optional goal_id, and
the goal_alignment attribute that _get_productivity_tasks sets on the
object (a float in 0..1, kept in tenths). -/
structure Task where
  id : Int
  priority : String
  category : Option String
  due_date : Option Int
  estimated_duration : Option Int
  goal_id : Option Int
  goal_alignment : Int
deriving DecidableEq

/-- A Goal row: id and optional category (the only columns the scheduler
reads). -/
structure Goal where
  id : Int
  category : Option String
deriving DecidableEq

/-- One (task_id, scheduled_time, duration) tuple produced by the
rule-based allocator _allocate_tasks_fallback; scheduled_time is minutes
from midnight. -/
structure ScheduledItem where
  task_id : Int
  scheduled_time : Nat
  duration : Nat
deriving DecidableEq

/-- A ScheduleTask row (task_id, scheduled_time, duration). Durations can
be any integer here because _generate_basic_schedule copies
estimated_duration unclamped. -/
structure ScheduleTask where
  task_id : Int
  scheduled_time : Int
  duration : Int
deriving DecidableEq

/-- A Schedule row: generated_by_ai flag, total_study_time in minutes and
its ScheduleTask rows. -/
structure Schedule where
  generated_by_ai : Bool
  total_study_time : Int
  tasks : List ScheduleTask
deriving DecidableEq

/-- One time block of _create_advanced_daily_structure: start and end in
minutes from midnight plus the type tag. The source stores dict keys
start / end / type; end is a Lean keyword so the field is named stop. -/
structure TimeBlock where
  start : Nat
  stop : Nat
  type : String
deriving DecidableEq

/-- The fixed daily skeleton built by _create_advanced_daily_structure:
morning routine 8:00-9:00, study 9:00-10:30, break 10:30-11:00, study
11:00-12:30, meal 12:30-13:30, study 13:30-15:00, break 15:00-15:30,
study 15:30-17:00, meal 17:00-18:00, study 18:00-19:30, wind down
19:30-20:00. -/
def create_advanced_daily_structure : List TimeBlock :=
  [⟨480, 540, "morning_routine"⟩,
   ⟨540, 630, "study"⟩,
   ⟨630, 660, "break"⟩,
   ⟨660, 750, "study"⟩,
   ⟨750, 810, "meal"⟩,
   ⟨810, 900, "study"⟩,
   ⟨900, 930, "break"⟩,
   ⟨930, 1020, "study"⟩,
   ⟨1020, 1080, "meal"⟩,
   ⟨1080, 1170, "study"⟩,
   ⟨1170, 1200, "wind_down"⟩]

/-- The category_multipliers table of _calculate_optimal_duration, scaled
by 10 (exam 1.3, assignment 1.1, reading 0.9, practice 1.0, review 0.8);
none for a category that is not in the table. -/
def category_multiplier (c : String) : Option Int :=
  if c = "exam" then some 13
  else if c = "assignment" then some 11
  else if c = "reading" then some 9
  else if c = "practice" then some 10
  else if c = "review" then some 8
  else none

/-- _calculate_optimal_duration: start from estimated_duration (a falsy
value, None or 0, falls back to default_duration), apply the priority
adjustment (high: min(base * 1.2, available_time); low: max(base * 0.8,
15)), apply the category multiplier when the lowercased category is in
the table, clamp with max(15, min(int(base), min(available_time, 120)))
and round to the nearest multiple of 5. The float value is tracked
exactly in hundredths of a minute; int() is division by 100 (every
reachable value is nonnegative, where truncation and floor agree), and
round(d / 5) * 5 on an integer d is 5 * ((d + 2) / 5) because d / 5 can
never be a half-integer. -/
def calculate_optimal_duration (t : Task) (available_time : Nat) (default_duration : Nat) : Nat :=
  let base0 : Int :=
    match t.estimated_duration with
    | some e => if e = 0 then default_duration else e
    | none => default_duration
  let b1 : Int := 100 * base0
  let b2 : Int :=
    if t.priority = "high" then min (b1 * 12 / 10) (100 * available_time)
    else if t.priority = "low" then max (b1 * 8 / 10) 1500
    else b1
  let b3 : Int :=
    match t.category with
    | some c =>
      if c = "" then b2
      else
        match category_multiplier c.toLower with
        | some m => b2 * m / 10
        | none => b2
    | none => b2
  let d : Int := max 15 (min (b3 / 100) (min (available_time : Int) 120))
  5 * ((d.toNat + 2) / 5)

/-- The sort key of the sorted() call at the top of
_allocate_tasks_fallback: priority rank (high 0, medium 1, low 2), then
due_date with None replaced by datetime.date.max (day ordinal 3652059),
then category with a falsy category replaced by "z". -/
def fallback_sort_key (t : Task) : Nat × Int × String :=
  (if t.priority = "high" then 0 else if t.priority = "medium" then 1 else 2,
   (match t.due_date with | some d => d | none => 3652059),
   (match t.category with | some c => if c = "" then "z" else c | none => "z"))

/-- Lexicographic comparison of char lists by code point, the order
Python uses on strings (String.lt in Lean, restated structurally). -/
def py_str_lt_chars : List Char → List Char → Bool
  | [], [] => false
  | [], _ :: _ => true
  | _ :: _, [] => false
  | c :: cs, d :: ds =>
    if c.toNat < d.toNat then true
    else if d.toNat < c.toNat then false
    else py_str_lt_chars cs ds

/-- Strict lexicographic order on strings by code point. -/
def py_str_lt (a b : String) : Bool :=
  py_str_lt_chars a.data b.data

/-- Non-strict lexicographic order on the fallback sort key; a stable
sort by this relation reproduces Python sorted() with the tuple key. -/
def fallback_sort_le (a b : Task) : Bool :=
  decide ((fallback_sort_key a).1 < (fallback_sort_key b).1) ||
  (decide ((fallback_sort_key a).1 = (fallback_sort_key b).1) &&
    (decide ((fallback_sort_key a).2.1 < (fallback_sort_key b).2.1) ||
      (decide ((fallback_sort_key a).2.1 = (fallback_sort_key b).2.1) &&
        (py_str_lt (fallback_sort_key a).2.2 (fallback_sort_key b).2.2 ||
         decide ((fallback_sort_key a).2.2 = (fallback_sort_key b).2.2)))))

/-- The inner while loop of _allocate_tasks_fallback packing one time
block: while the remaining block capacity is at least the work duration
and tasks remain, compute the duration of the head task; if it fits,
emit the item at the cursor, advance cursor and capacity, bump the
session counter, and when the remaining capacity allows a break and more
tasks remain insert a short break, or a long break (with the session
counter reset) every sessions_until_long_break-th session; if the task
does not fit, stop packing this block. Returns the emitted items, the
tasks still unscheduled and the session counter. -/
def pack_block (cfg : Cfg) : List Task → Nat → Nat → Nat → List ScheduledItem × List Task × Nat
  | [], _, _, sc => ([], [], sc)
  | t :: ts, cursor, remaining, sc =>
    if remaining < cfg.pomodoro_work_duration then ([], t :: ts, sc)
    else
      let duration := calculate_optimal_duration t remaining cfg.pomodoro_work_duration
      if duration ≤ remaining then
        let sc1 := sc + 1
        let rem1 := remaining - duration
        let cur1 := cursor + duration
        let bact :=
          if sc1 % cfg.sessions_until_long_break ≠ 0 then cfg.pomodoro_break_duration
          else cfg.long_break_duration
        if cfg.pomodoro_break_duration ≤ rem1 ∧ ts ≠ [] ∧ bact ≤ rem1 then
          let r := pack_block cfg ts (cur1 + bact) (rem1 - bact)
            (if sc1 % cfg.sessions_until_long_break = 0 then 0 else sc1)
          (⟨t.id, cursor, duration⟩ :: r.1, r.2)
        else
          let r := pack_block cfg ts cur1 rem1 sc1
          (⟨t.id, cursor, duration⟩ :: r.1, r.2)
      else ([], t :: ts, sc)

/-- The outer for loop of _allocate_tasks_fallback over the daily
structure: stop when no tasks remain, skip blocks whose type is "break",
and pack every other block starting at its start with its length as
capacity, threading the unscheduled tasks and the session counter. -/
def alloc_blocks (cfg : Cfg) : List TimeBlock → List Task → Nat → List ScheduledItem
  | [], _, _ => []
  | b :: bs, ts, sc =>
    if ts = [] then []
    else if b.type = "break" then alloc_blocks cfg bs ts sc
    else
      (pack_block cfg ts b.start (b.stop - b.start) sc).1 ++
        alloc_blocks cfg bs (pack_block cfg ts b.start (b.stop - b.start) sc).2.1
          (pack_block cfg ts b.start (b.stop - b.start) sc).2.2

/-- _allocate_tasks_fallback: sort the tasks by priority, due date and
category (Python sorted is stable, which List.insertionSort with a
non-strict relation reproduces), then pack them into the daily
structure. -/
def allocate_tasks_fallback (cfg : Cfg) (tasks : List Task) : List ScheduledItem :=
  alloc_blocks cfg create_advanced_daily_structure
    (List.insertionSort (fun a b => fallback_sort_le a b = true) tasks) 0

/-- The default preferred study times of _get_preferred_times (9:00,
14:00, 19:00) in minutes from midnight. -/
def default_preferred_times : List Nat := [540, 840, 1140]

/-- _generate_basic_schedule with a caller-supplied task list: an empty
list yields an empty schedule; otherwise one task per preferred time
slot, duration estimated_duration (falsy falls back to 25), total the
sum of the durations. generated_by_ai is False in this tier. -/
def generate_basic_schedule (preferred_times : List Nat) (tasks : List Task) : Schedule :=
  if tasks = [] then ⟨false, 0, []⟩
  else
    let allocations := (tasks.take preferred_times.length).enum.map fun p =>
      (⟨p.2.id, ((preferred_times.getD p.1 0 : Nat) : Int),
        (match p.2.estimated_duration with
         | some e => if e = 0 then 25 else e
         | none => 25)⟩ : ScheduleTask)
    ⟨false, (allocations.map ScheduleTask.duration).sum, allocations⟩

/-- _generate_advanced_schedule with a caller-supplied task list: an
empty list yields an empty schedule with generated_by_ai True; otherwise
the rows come from _allocate_tasks_fallback and total_study_time is the
sum of the allocated durations. -/
def generate_advanced_schedule (cfg : Cfg) (tasks : List Task) : Schedule :=
  if tasks = [] then ⟨true, 0, []⟩
  else
    let scheduled := allocate_tasks_fallback cfg tasks
    ⟨true, (scheduled.map fun a => (a.duration : Int)).sum,
     scheduled.map fun a => ⟨a.task_id, (a.scheduled_time : Int), (a.duration : Int)⟩⟩

/-- _calculate_due_date_urgency in tenths (0.3 for no due date, 1.0
overdue, 0.9 due today, 0.7 within 3 days, 0.5 within 7 days, 0.2
otherwise). -/
def calculate_due_date_urgency (due_date : Option Int) (current_date : Int) : Int :=
  match due_date with
  | none => 3
  | some due =>
    if due - current_date < 0 then 10
    else if due - current_date = 0 then 9
    else if due - current_date ≤ 3 then 7
    else if due - current_date ≤ 7 then 5
    else 2

/-- _predict_energy_requirement, the placeholder constant 5.0. -/
def predict_energy_requirement (_ : Task) : Int := 5

/-- _get_task_performance_history, the neutral constant 0.5 (tenths). -/
def get_task_performance_history (_ : Task) : Int := 5

/-- The category_estimates table of _estimate_task_duration with its
.get default of 30 (exam 90, assignment 60, reading 45, practice 30,
review 25). -/
def category_estimate (c : String) : Int :=
  if c = "exam" then 90
  else if c = "assignment" then 60
  else if c = "reading" then 45
  else if c = "practice" then 30
  else if c = "review" then 25
  else 30

/-- _estimate_task_duration: category base estimate (a falsy category is
looked up as "general", giving the default 30), int(base * 1.2) for high
priority or int(base * 0.8) for low, clamped to [15, 120]. The float
products are exact multiples of 1/10, represented via * 12 / 10 and
* 8 / 10 on Int. -/
def estimate_task_duration (t : Task) : Int :=
  let base :=
    match t.category with
    | some c => if c = "" then 30 else category_estimate c.toLower
    | none => 30
  let adjusted :=
    if t.priority = "high" then base * 12 / 10
    else if t.priority = "low" then base * 8 / 10
    else base
  max 15 (min adjusted 120)

/-- One entry of the list _prioritize_for_productivity builds: the task,
its weighted priority score, estimated duration, the placeholder optimal
energy time 9:00, and the category with a falsy value replaced by
"General". -/
structure PrioritizedTask where
  task : Task
  priority_score : Int
  estimated_duration : Int
  optimal_energy_time : Nat
  category : String
deriving DecidableEq

/-- The entry _prioritize_for_productivity builds per task. The float
score base_priority * 0.3 + urgency * 0.25 + energy * 0.2 + alignment
* 0.15 + history * 0.1 is an exact multiple of 1/200 (urgency, alignment
and history are tenths and the weights are 3/10, 1/4, 1/5, 3/20, 1/10),
so priority_score is stored scaled by 200: base * 60 + urgency_tenths
* 5 + energy * 40 + alignment_tenths * 3 + history_tenths * 2. -/
def prioritized_entry (date : Int) (t : Task) : PrioritizedTask :=
  ⟨t,
   (if t.priority = "high" then 3 else if t.priority = "medium" then 2 else 1) * 60 +
     calculate_due_date_urgency t.due_date date * 5 +
     predict_energy_requirement t * 40 +
     t.goal_alignment * 3 +
     get_task_performance_history t * 2,
   (match t.estimated_duration with
    | some e => if e = 0 then estimate_task_duration t else e
    | none => estimate_task_duration t),
   540,
   (match t.category with
    | some c => if c = "" then "General" else c
    | none => "General")⟩

/-- _prioritize_for_productivity: build the entries in input order and
sort them descending by priority_score; Python sorted(reverse=True) is
stable, which insertionSort with the non-strict descending relation
reproduces. -/
def prioritize_for_productivity (tasks : List Task) (date : Int) : List PrioritizedTask :=
  List.insertionSort
    (fun a b : PrioritizedTask => b.priority_score ≤ a.priority_score)
    (tasks.map (prioritized_entry date))

/-- _time_in_range with the default tolerance of 60 minutes. -/
def time_in_range (time_minutes preferred_minutes : Nat) : Bool :=
  ((time_minutes : Int) - (preferred_minutes : Int)).natAbs ≤ 60

/-- One allocation dict of _allocate_energy_aware_times (the task entry,
scheduled time in minutes, duration, energy score in tenths; the
rationale string is omitted). -/
structure EnergyAllocation where
  task : Task
  scheduled_time : Int
  duration : Int
  energy_score : Int
deriving DecidableEq

/-- The first loop of _allocate_energy_aware_times over the
energy-sorted slots: stop when tasks run out; allocate the next task at
hour:00 when the hour is within 60 minutes of a preferred time and its
energy is at least 3.0 (30 tenths), otherwise move to the next slot.
Returns the allocations, the unallocated tasks and the next task index. -/
def energy_allocate_loop (preferred_times : List Nat) :
    List (Nat × Int) → List PrioritizedTask → Nat →
    List EnergyAllocation × List PrioritizedTask × Nat
  | [], ts, i => ([], ts, i)
  | _, [], i => ([], [], i)
  | (h, e) :: slots, t :: ts, i =>
    if preferred_times.any fun p => time_in_range (h * 60) p then
      if 30 ≤ e then
        let r := energy_allocate_loop preferred_times slots ts (i + 1)
        (⟨t.task, ((h * 60 : Nat) : Int), t.estimated_duration, e⟩ :: r.1, r.2)
      else energy_allocate_loop preferred_times slots (t :: ts) i
    else energy_allocate_loop preferred_times slots (t :: ts) i

/-- The fallback while loop of _allocate_energy_aware_times: each
remaining task goes to preferred_times[index % len] with the neutral
energy score 5.0 (50 tenths). -/
def energy_fallback_loop (preferred_times : List Nat) :
    List PrioritizedTask → Nat → List EnergyAllocation
  | [], _ => []
  | t :: ts, i =>
    ⟨t.task, ((preferred_times.getD (i % preferred_times.length) 0 : Nat) : Int),
      t.estimated_duration, 50⟩ :: energy_fallback_loop preferred_times ts (i + 1)

/-- _allocate_energy_aware_times: sort the energy forecast slots
descending by energy (stable), run the energy-aware loop, then place the
leftover tasks at the preferred times. -/
def allocate_energy_aware_times (preferred_times : List Nat) (slots : List (Nat × Int))
    (prioritized_tasks : List PrioritizedTask) : List EnergyAllocation :=
  (energy_allocate_loop preferred_times
      (List.insertionSort (fun a b : Nat × Int => b.2 ≤ a.2) slots)
      prioritized_tasks 0).1 ++
    energy_fallback_loop preferred_times
      (energy_allocate_loop preferred_times
        (List.insertionSort (fun a b : Nat × Int => b.2 ≤ a.2) slots)
        prioritized_tasks 0).2.1
      (energy_allocate_loop preferred_times
        (List.insertionSort (fun a b : Nat × Int => b.2 ≤ a.2) slots)
        prioritized_tasks 0).2.2

/-- _get_energy_forecast when no stored energy patterns exist: hours 6
to 21 with energy max(3.0, 8.0 - abs(hour - 10)), in tenths. -/
def get_energy_forecast : List (Nat × Int) :=
  (List.range 16).map fun k =>
    (k + 6, max 30 (80 - 10 * (((k : Int) + 6 - 10).natAbs : Int)))

/-- One block of the list _inject_productivity_breaks builds: either a
task allocation or an inserted break (the suggested activity string,
chosen at random in the source, is omitted). -/
inductive ProductivityBlock where
  | task (t : Task) (scheduled_time : Int) (duration : Int) (energy_score : Int)
  | brk (scheduled_time : Int) (duration : Int)
deriving DecidableEq

/-- The loop of _inject_productivity_breaks: append each block, bump the
session counter, and after every block except the last insert a break
starting when the block ends; every sessions_until_long_break-th session
the break is long, otherwise short. -/
def inject_breaks_loop (cfg : Cfg) : Nat → List EnergyAllocation → List ProductivityBlock
  | _, [] => []
  | _, [b] => [.task b.task b.scheduled_time b.duration b.energy_score]
  | sc, b :: rest =>
    .task b.task b.scheduled_time b.duration b.energy_score ::
    .brk (b.scheduled_time + b.duration)
      (if (sc + 1) % cfg.sessions_until_long_break = 0 then (cfg.long_break_duration : Int)
       else (cfg.pomodoro_break_duration : Int)) ::
    inject_breaks_loop cfg (sc + 1) rest

/-- _inject_productivity_breaks (session_count starts at 0 and is
incremented after each block is appended). -/
def inject_productivity_breaks (cfg : Cfg) (time_blocks : List EnergyAllocation) :
    List ProductivityBlock :=
  inject_breaks_loop cfg 0 time_blocks

/-- _create_productivity_schedule: total_study_time sums the durations
of the non-break blocks, and only the task blocks become ScheduleTask
rows. -/
def create_productivity_schedule (schedule_blocks : List ProductivityBlock) : Schedule :=
  ⟨true,
   (schedule_blocks.filterMap fun b =>
      match b with
      | .task _ _ d _ => some d
      | .brk _ _ => none).sum,
   schedule_blocks.filterMap fun b =>
      match b with
      | .task t st d _ => some (⟨t.id, st, d⟩ : ScheduleTask)
      | .brk _ _ => none⟩

/-- _generate_productivity_optimized_schedule with a caller-supplied
task list: empty tasks yield _generate_empty_schedule (generated_by_ai
True, total 0); otherwise prioritize, allocate energy-aware times,
inject breaks and assemble the schedule. -/
def generate_productivity_optimized_schedule (cfg : Cfg) (date : Int)
    (preferred_times : List Nat) (slots : List (Nat × Int)) (tasks : List Task) : Schedule :=
  if tasks = [] then ⟨true, 0, []⟩
  else
    create_productivity_schedule
      (inject_productivity_breaks cfg
        (allocate_energy_aware_times preferred_times slots
          (prioritize_for_productivity tasks date)))

/-- generate_schedule, the three-tier fallback chain. The source catches
any exception of the productivity tier and then of the advanced tier;
those environment-driven failures (database errors, missing dynamic
attributes) are modelled by the two Bool flags, and the basic tier is a
total function (it has no exception handler around it). -/
def generate_schedule (productivity_fails advanced_fails : Bool) (cfg : Cfg) (date : Int)
    (preferred_times : List Nat) (slots : List (Nat × Int)) (tasks : List Task) : Schedule :=
  if productivity_fails = false then
    generate_productivity_optimized_schedule cfg date preferred_times slots tasks
  else if advanced_fails = false then
    generate_advanced_schedule cfg tasks
  else
    generate_basic_schedule preferred_times tasks

/-- The substring test of _calculate_goal_alignment:
task.category and goal.category and task.category.lower() in
goal.category.lower(). -/
def category_overlap (t : Task) (g : Goal) : Bool :=
  match t.category, g.category with
  | some tc, some gc =>
    if tc = "" ∨ gc = "" then false
    else decide (tc.toLower.data <:+: gc.toLower.data)
  | _, _ => false

/-- The loop of _calculate_goal_alignment: 1.0 (and stop) when the task
is linked to the goal, else raise the score to 0.7 on a category
overlap; values in tenths. -/
def goal_align_loop (t : Task) : List Goal → Int → Int
  | [], s => s
  | g :: gs, s =>
    if t.goal_id = some g.id then 10
    else if category_overlap t g then goal_align_loop t gs (max s 7)
    else goal_align_loop t gs s

/-- _calculate_goal_alignment: 0.5 when there are no active goals,
otherwise the loop starting from 0.0; values in tenths. -/
def calculate_goal_alignment (t : Task) (active_goals : List Goal) : Int :=
  if active_goals = [] then 5
  else goal_align_loop t active_goals 0

/-- _calculate_productivity_score in tenths: 0.5 base, +0.2 high or
+0.1 medium priority, +0.2 due within 1 day or +0.1 within 3, capped at
1.0. -/
def calculate_productivity_score (t : Task) (date : Int) : Int :=
  let base : Int := 5 + (if t.priority = "high" then 2 else if t.priority = "medium" then 1 else 0)
  let base : Int := base +
    (match t.due_date with
     | some due => if due - date ≤ 1 then 2 else if due - date ≤ 3 then 1 else 0
     | none => 0)
  min base 10

/-- The and/or priority number of the sort key in _get_productivity_tasks
(high 3, medium 2, else 1). -/
def productivity_priority_num (t : Task) : Int :=
  if t.priority = "high" then 3 else if t.priority = "medium" then 2 else 1

/-- The descending stable order of the _get_productivity_tasks sort:
reverse=True on the key (priority number, productivity_score). -/
def productivity_sort_le (date : Int) (a b : Task) : Bool :=
  decide (productivity_priority_num b < productivity_priority_num a) ||
  (decide (productivity_priority_num b = productivity_priority_num a) &&
    decide (calculate_productivity_score b date ≤ calculate_productivity_score a date))

/-- _get_productivity_tasks on a caller-visible task set: set the
goal_alignment attribute from the active goals (productivity_score is
recomputed inside the sort key), sort descending by (priority number,
productivity_score) and keep the top 10. -/
def get_productivity_tasks (base_tasks : List Task) (active_goals : List Goal)
    (date : Int) : List Task :=
  let enhanced_tasks := base_tasks.map fun t =>
    { t with goal_alignment := calculate_goal_alignment t active_goals }
  (List.insertionSort (fun a b => productivity_sort_le date a b = true) enhanced_tasks).take 10

/-- One parsed item of the external generator response in
_generate_ai_schedule: task_id, scheduled_time "HH:MM" already converted
to minutes, and duration. -/
structure AiScheduleItem where
  task_id : Int
  scheduled_time : Nat
  duration : Int
deriving DecidableEq

/-- _generate_ai_schedule: an unavailable API, a call failure or an
unparseable response (none) falls back to _allocate_tasks_fallback; a
parsed response is converted item by item with the duration clamped by
max(15, min(duration, 90)) and the task_id copied as is. -/
def generate_ai_schedule (cfg : Cfg) (tasks : List Task)
    (response : Option (List AiScheduleItem)) : List ScheduledItem :=
  match response with
  | none => allocate_tasks_fallback cfg tasks
  | some items =>
    items.map fun it => ⟨it.task_id, it.scheduled_time, (max 15 (min it.duration 90)).toNat⟩

/-- The loop of _distribute_tasks_fallback: append task i to bucket
i % days. -/
def distribute_tasks_fallback_loop (days : Nat) :
    List (List Task) → Nat → List Task → List (List Task)
  | buckets, _, [] => buckets
  | buckets, i, t :: ts =>
    distribute_tasks_fallback_loop days (buckets.modify (fun b => b ++ [t]) (i % days)) (i + 1) ts

/-- _distribute_tasks_fallback: round-robin index-modulo-day
distribution into days empty buckets. -/
def distribute_tasks_fallback (tasks : List Task) (days : Nat) : List (List Task) :=
  distribute_tasks_fallback_loop days (List.replicate days []) 0 tasks

/-- _distribute_tasks_across_days: an empty task list returns empty
buckets before the try block. On a non-empty list the external
day-index path is dead code: the module never imports json at top level
(the only import json is local to _generate_ai_schedule), so the name
json is unbound here and json.loads raises NameError on every call; the
except Exception handler catches it and the function always returns
_distribute_tasks_fallback. The response argument stands for whatever
the external generator would have produced; it is unused because the
conversion following the parse is unreachable. -/
def distribute_tasks_across_days (tasks : List Task) (days : Nat)
    (_response : Option (List (List Int))) : List (List Task) :=
  if tasks = [] then List.replicate days []
  else distribute_tasks_fallback tasks days

/-- _analyze_workload_balance, the balance_level string as a function of
schedule.total_study_time. -/
def analyze_workload_balance (total_time : Int) : String :=
  if 300 < total_time then "overloaded"
  else if 180 < total_time then "balanced"
  else "light"

/-! ## Invariant lemmas about the rule-based allocator -/

/-- The clamp-and-round tail of _calculate_optimal_duration lands in
[15, 120] and on a multiple of 5, whatever the unclamped value is. -/
lemma round5_clamp_bounds (x y : Int) :
    15 ≤ 5 * (((max 15 (min x (min y 120))).toNat + 2) / 5) ∧
    5 * (((max 15 (min x (min y 120))).toNat + 2) / 5) ≤ 120 ∧
    5 * (((max 15 (min x (min y 120))).toNat + 2) / 5) % 5 = 0 := by
  omega

/-- Every item packed into a block starts at or after the cursor. -/
lemma pack_block_start_le (cfg : Cfg) (ts : List Task) :
    ∀ (cursor remaining sc : Nat) (a : ScheduledItem),
      a ∈ (pack_block cfg ts cursor remaining sc).1 → cursor ≤ a.scheduled_time := by
  induction ts with
  | nil =>
    intro cursor remaining sc a ha
    simp [pack_block] at ha
  | cons t ts ih =>
    intro cursor remaining sc a ha
    simp only [pack_block] at ha
    split at ha
    · simp at ha
    · split at ha
      · split at ha <;> split at ha <;>
          rcases List.mem_cons.mp ha with rfl | h <;>
            first
              | exact Nat.le_refl _
              | (have hrec := ih _ _ _ a h; omega)
      · simp at ha

/-- Every item packed into a block ends within the capacity window
[cursor, cursor + remaining]. -/
lemma pack_block_end_le (cfg : Cfg) (ts : List Task) :
    ∀ (cursor remaining sc : Nat) (a : ScheduledItem),
      a ∈ (pack_block cfg ts cursor remaining sc).1 →
        a.scheduled_time + a.duration ≤ cursor + remaining := by
  induction ts with
  | nil =>
    intro cursor remaining sc a ha
    simp [pack_block] at ha
  | cons t ts ih =>
    intro cursor remaining sc a ha
    simp only [pack_block] at ha
    split at ha
    · simp at ha
    · split at ha
      · rename_i hfit
        split at ha <;> split at ha <;>
          rcases List.mem_cons.mp ha with rfl | h <;>
            first
              | (dsimp only; omega)
              | (have hrec := ih _ _ _ a h; omega)
      · simp at ha

/-- Within one packed block the emitted items are sequential: each ends
before the next begins. -/
lemma pack_block_pairwise (cfg : Cfg) (ts : List Task) :
    ∀ (cursor remaining sc : Nat),
      List.Pairwise
        (fun a b : ScheduledItem => a.scheduled_time + a.duration ≤ b.scheduled_time)
        (pack_block cfg ts cursor remaining sc).1 := by
  induction ts with
  | nil =>
    intro cursor remaining sc
    simp [pack_block]
  | cons t ts ih =>
    intro cursor remaining sc
    simp only [pack_block]
    split
    · simp
    · split
      · rename_i hfit
        split <;> split <;>
          (refine List.Pairwise.cons ?_ (ih _ _ _)
           intro b hb
           have hrec := pack_block_start_le cfg ts _ _ _ b hb
           dsimp only
           omega)
      · simp

/-- Every item the outer loop emits lies inside one of the non-break
blocks, between that block's start and start + length. -/
lemma alloc_blocks_mem (cfg : Cfg) (blocks : List TimeBlock) :
    ∀ (ts : List Task) (sc : Nat) (a : ScheduledItem),
      a ∈ alloc_blocks cfg blocks ts sc →
        ∃ b ∈ blocks, b.type ≠ "break" ∧ b.start ≤ a.scheduled_time ∧
          a.scheduled_time + a.duration ≤ b.start + (b.stop - b.start) := by
  induction blocks with
  | nil =>
    intro ts sc a ha
    simp [alloc_blocks] at ha
  | cons b bs ih =>
    intro ts sc a ha
    simp only [alloc_blocks] at ha
    split at ha
    · simp at ha
    · split at ha
      · rename_i hbr
        obtain ⟨b', hb', hh⟩ := ih _ _ _ ha
        exact ⟨b', List.mem_cons_of_mem _ hb', hh⟩
      · rename_i hbr
        rcases List.mem_append.mp ha with h | h
        · exact ⟨b, List.mem_cons_self _ _, hbr,
            pack_block_start_le cfg ts _ _ _ a h,
            pack_block_end_le cfg ts _ _ _ a h⟩
        · obtain ⟨b', hb', hh⟩ := ih _ _ _ h
          exact ⟨b', List.mem_cons_of_mem _ hb', hh⟩

/-- For a chronologically ordered block list (each block well formed and
ending before the next starts), the emitted items are sequential across
the whole day. -/
lemma alloc_blocks_pairwise (cfg : Cfg) (blocks : List TimeBlock)
    (hwf : ∀ b ∈ blocks, b.start ≤ b.stop)
    (hord : List.Pairwise (fun x y : TimeBlock => x.stop ≤ y.start) blocks) :
    ∀ (ts : List Task) (sc : Nat),
      List.Pairwise
        (fun a b : ScheduledItem => a.scheduled_time + a.duration ≤ b.scheduled_time)
        (alloc_blocks cfg blocks ts sc) := by
  induction blocks with
  | nil =>
    intro ts sc
    simp [alloc_blocks]
  | cons b bs ih =>
    intro ts sc
    have hwf_b : b.start ≤ b.stop := hwf b (List.mem_cons_self _ _)
    have hwf_bs : ∀ x ∈ bs, x.start ≤ x.stop := fun x hx => hwf x (List.mem_cons_of_mem _ hx)
    have hord_head := (List.pairwise_cons.mp hord).1
    have hord_bs := (List.pairwise_cons.mp hord).2
    simp only [alloc_blocks]
    split
    · simp
    · split
      · exact ih hwf_bs hord_bs _ _
      · rw [List.pairwise_append]
        refine ⟨pack_block_pairwise cfg ts _ _ _, ih hwf_bs hord_bs _ _, ?_⟩
        intro x hx y hy
        have hxe := pack_block_end_le cfg ts _ _ _ x hx
        obtain ⟨b', hb', -, hys, -⟩ := alloc_blocks_mem cfg bs _ _ y hy
        have : b.stop ≤ b'.start := hord_head b' hb'
        omega

/-! ## C4 -/

/-- C4: for every task, available time and default duration,
_calculate_optimal_duration returns an integer number of minutes in
[15, 120] that is a multiple of 5, hence never zero or negative. -/
theorem calculate_optimal_duration_bounds (t : Task)
    (available_time default_duration : Nat) :
    15 ≤ calculate_optimal_duration t available_time default_duration ∧
    calculate_optimal_duration t available_time default_duration ≤ 120 ∧
    calculate_optimal_duration t available_time default_duration % 5 = 0 := by
  unfold calculate_optimal_duration
  exact round5_clamp_bounds _ _

/-! ## C9 -/

/-- C9 counterexample: a schedule of exactly 180 minutes is categorized
"light", not "balanced", so the closed range 180 to 300 of the claim is
wrong at its lower endpoint. -/
theorem analyze_workload_balance_at_180 :
    analyze_workload_balance 180 = "light" ∧ analyze_workload_balance 180 ≠ "balanced" := by
  decide

/-- C9 amended: _analyze_workload_balance categorizes a total above 300
minutes as overloaded, a total in the half-open range (180, 300] as
balanced, and a total of at most 180 minutes (including 180 itself) as
light. -/
theorem analyze_workload_balance_levels (total_time : Int) :
    (300 < total_time → analyze_workload_balance total_time = "overloaded") ∧
    (180 < total_time → total_time ≤ 300 → analyze_workload_balance total_time = "balanced") ∧
    (total_time ≤ 180 → analyze_workload_balance total_time = "light") := by
  unfold analyze_workload_balance
  refine ⟨fun h => ?_, fun h1 h2 => ?_, fun h => ?_⟩
  · rw [if_pos h]
  · rw [if_neg (by omega), if_pos h1]
  · rw [if_neg (by omega), if_neg (by omega)]

/-- C9 witness: the amended theorem evaluated at 301, 200 and 100
minutes. -/
theorem analyze_workload_balance_levels_witness :
    analyze_workload_balance 301 = "overloaded" ∧
    analyze_workload_balance 200 = "balanced" ∧
    analyze_workload_balance 100 = "light" :=
  ⟨(analyze_workload_balance_levels 301).1 (by norm_num),
   (analyze_workload_balance_levels 200).2.1 (by norm_num) (by norm_num),
   (analyze_workload_balance_levels 100).2.2 (by norm_num)⟩

/-! ## C8 -/

/-- C8: whichever of the two catch-guarded tiers fail, generate_schedule
on an empty task list returns a schedule with total_study_time 0 and no
task rows, without raising (every tier is a total function here, and the
final basic tier, which the source does not wrap in an exception
handler, is reached exactly when both earlier tiers fail). -/
theorem generate_schedule_empty_task_list (productivity_fails advanced_fails : Bool)
    (cfg : Cfg) (date : Int) (preferred_times : List Nat) (slots : List (Nat × Int)) :
    (generate_schedule productivity_fails advanced_fails cfg date preferred_times slots
        []).total_study_time = 0 ∧
    (generate_schedule productivity_fails advanced_fails cfg date preferred_times slots
        []).tasks = [] ∧
    ∀ tasks : List Task,
      generate_schedule true true cfg date preferred_times slots tasks =
        generate_basic_schedule preferred_times tasks := by
  refine ⟨?_, ?_, fun tasks => rfl⟩ <;>
    cases productivity_fails <;> cases advanced_fails <;>
      simp [generate_schedule, generate_productivity_optimized_schedule,
        generate_advanced_schedule, generate_basic_schedule]

/-! ## C6 -/

/-- C6 counterexample: a structurally valid external response whose item
references task id 999, which is not in the submitted task set, is
accepted and propagated unchanged, so no task-id membership validation
happens. -/
theorem generate_ai_schedule_foreign_task_id :
    generate_ai_schedule default_cfg [⟨1, "medium", none, none, none, none, 5⟩]
        (some [⟨999, 540, 60⟩]) = [⟨999, 540, 60⟩] ∧
    (999 : Int) ∉ ([⟨1, "medium", none, none, none, none, 5⟩] : List Task).map Task.id := by
  decide

/-- C6 amended: every allocation built from an accepted external
response has its duration clamped into [15, 90]; a failed or unparseable
response (none) falls back to the rule-based allocator instead of being
propagated; but the task ids of the response are not validated against
the submitted task set. -/
theorem generate_ai_schedule_spec (cfg : Cfg) (tasks : List Task)
    (items : List AiScheduleItem) :
    (∀ a ∈ generate_ai_schedule cfg tasks (some items),
      15 ≤ a.duration ∧ a.duration ≤ 90) ∧
    generate_ai_schedule cfg tasks none = allocate_tasks_fallback cfg tasks := by
  constructor
  · intro a ha
    simp only [generate_ai_schedule, List.mem_map] at ha
    obtain ⟨it, -, rfl⟩ := ha
    simp only []
    omega
  · rfl

/-- C6 witness: the amended theorem applied to a concrete response item
with an oversized duration, which comes out clamped to 90. -/
theorem generate_ai_schedule_spec_witness :
    15 ≤ (⟨7, 540, ((90 : Int)).toNat⟩ : ScheduledItem).duration ∧
    (⟨7, 540, ((90 : Int)).toNat⟩ : ScheduledItem).duration ≤ 90 :=
  (generate_ai_schedule_spec default_cfg [] [⟨7, 540, 1000⟩]).1
    ⟨7, 540, ((90 : Int)).toNat⟩ (by decide)

/-! ## C1 -/

/-- C1 counterexample: with the default configuration a single medium
task is scheduled at 8:00 inside the morning_routine block, because the
allocator skips only blocks of type "break"; the interval [480, 505)
lies inside no study block (the first study block starts at 9:00). -/
theorem allocation_outside_study_blocks :
    allocate_tasks_fallback default_cfg [⟨1, "medium", none, none, none, none, 5⟩]
      = [⟨1, 480, 25⟩] ∧
    ∀ b ∈ create_advanced_daily_structure,
      b.type = "study" → ¬ (b.start ≤ 480 ∧ 480 + 25 ≤ b.stop) := by
  decide

/-- C1 amended: every ScheduledItem of the rule-based allocator lies
fully inside some block of the day skeleton whose type is not "break";
the allocator skips only break blocks, so morning_routine, meal and
wind_down blocks can also receive tasks. -/
theorem allocate_tasks_fallback_containment (cfg : Cfg) (tasks : List Task) :
    ∀ item ∈ allocate_tasks_fallback cfg tasks,
      ∃ b ∈ create_advanced_daily_structure, b.type ≠ "break" ∧
        b.start ≤ item.scheduled_time ∧
        item.scheduled_time + item.duration ≤ b.stop := by
  intro item hitem
  obtain ⟨b, hb, hbr, h1, h2⟩ :=
    alloc_blocks_mem cfg create_advanced_daily_structure _ _ item hitem
  have hwf : b.start ≤ b.stop := by
    have hall : ∀ x ∈ create_advanced_daily_structure, x.start ≤ x.stop := by decide
    exact hall b hb
  exact ⟨b, hb, hbr, h1, by omega⟩

/-- C1 witness: the containment theorem applied to the one item the
allocator produces for a single 30-minute task. -/
theorem allocate_tasks_fallback_containment_witness :
    ∃ b ∈ create_advanced_daily_structure, b.type ≠ "break" ∧
      b.start ≤ (⟨1, 480, 30⟩ : ScheduledItem).scheduled_time ∧
      (⟨1, 480, 30⟩ : ScheduledItem).scheduled_time +
        (⟨1, 480, 30⟩ : ScheduledItem).duration ≤ b.stop :=
  allocate_tasks_fallback_containment default_cfg
    [⟨1, "medium", none, none, some 30, none, 5⟩] ⟨1, 480, 30⟩ (by decide)

/-! ## C2 -/

/-- C2 counterexample: the basic fallback tier copies estimated_duration
unclamped, so a 400-minute task placed at the 9:00 preferred slot overlaps
the next task placed at 14:00 inside the same generated Schedule. -/
theorem basic_schedule_overlapping_items :
    (generate_basic_schedule default_preferred_times
        [⟨1, "high", none, none, some 400, none, 5⟩,
         ⟨2, "medium", none, none, some 30, none, 5⟩]).tasks
      = [⟨1, 540, 400⟩, ⟨2, 840, 30⟩] ∧
    (840 : Int) < 540 + 400 ∧ (540 : Int) < 840 + 30 := by
  decide

/-- C2 amended: the advanced rule-based allocator always produces
pairwise disjoint items (each item even ends before the next starts);
the basic and productivity tiers do not guarantee disjointness. -/
theorem allocate_tasks_fallback_no_overlap (cfg : Cfg) (tasks : List Task) :
    List.Pairwise
      (fun a b : ScheduledItem =>
        a.scheduled_time + a.duration ≤ b.scheduled_time ∨
        b.scheduled_time + b.duration ≤ a.scheduled_time)
      (allocate_tasks_fallback cfg tasks) := by
  unfold allocate_tasks_fallback
  exact (alloc_blocks_pairwise cfg create_advanced_daily_structure
    (by decide) (by decide) _ 0).imp fun hab => Or.inl hab

/-! ## C3 -/

/-- When the head task fits, the packed block starts with its item at the
cursor, whatever happens afterwards. -/
lemma pack_block_head (cfg : Cfg) (t : Task) (ts : List Task) (cursor remaining sc : Nat)
    (hw : cfg.pomodoro_work_duration ≤ remaining)
    (hfit : calculate_optimal_duration t remaining cfg.pomodoro_work_duration ≤ remaining) :
    ∃ rest, (pack_block cfg (t :: ts) cursor remaining sc).1 =
      ⟨t.id, cursor, calculate_optimal_duration t remaining cfg.pomodoro_work_duration⟩ :: rest := by
  simp only [pack_block]
  rw [if_neg (by omega)]
  split
  · split <;> split <;> exact ⟨_, rfl⟩
  · rename_i hnfit
    exact absurd hfit hnfit

/-- C3: the break cadence of _allocate_tasks_fallback inside one block.
In a fully packed run (both sessions fit and the block retains room for
any break), placing a session bumps the counter; when the new count is a
multiple of sessions_until_long_break the next session starts a long
break later and the counter restarts at 0, otherwise it starts a short
break later with the counter kept. The first conjunct is the one-step
unfolding showing the reset, the second locates the two consecutive
sessions separated by exactly the break. -/
theorem pack_block_break_cadence (cfg : Cfg) (cursor remaining sc : Nat)
    (t₁ t₂ : Task) (ts : List Task) (d₁ d₂ b : Nat)
    (hd₁ : calculate_optimal_duration t₁ remaining cfg.pomodoro_work_duration = d₁)
    (hb : b = if (sc + 1) % cfg.sessions_until_long_break = 0
      then cfg.long_break_duration else cfg.pomodoro_break_duration)
    (hd₂ : calculate_optimal_duration t₂ (remaining - d₁ - b) cfg.pomodoro_work_duration = d₂)
    (hw : cfg.pomodoro_work_duration ≤ remaining)
    (hfit₁ : d₁ ≤ remaining)
    (hbl : cfg.pomodoro_break_duration ≤ cfg.long_break_duration)
    (hlb : cfg.long_break_duration ≤ remaining - d₁)
    (hw₂ : cfg.pomodoro_work_duration ≤ remaining - d₁ - b)
    (hfit₂ : d₂ ≤ remaining - d₁ - b) :
    pack_block cfg (t₁ :: t₂ :: ts) cursor remaining sc =
      (⟨t₁.id, cursor, d₁⟩ ::
        (pack_block cfg (t₂ :: ts) (cursor + d₁ + b) (remaining - d₁ - b)
          (if (sc + 1) % cfg.sessions_until_long_break = 0 then 0 else sc + 1)).1,
       (pack_block cfg (t₂ :: ts) (cursor + d₁ + b) (remaining - d₁ - b)
          (if (sc + 1) % cfg.sessions_until_long_break = 0 then 0 else sc + 1)).2) ∧
    (pack_block cfg (t₁ :: t₂ :: ts) cursor remaining sc).1.take 2 =
      [⟨t₁.id, cursor, d₁⟩, ⟨t₂.id, cursor + d₁ + b, d₂⟩] := by
  have key : pack_block cfg (t₁ :: t₂ :: ts) cursor remaining sc =
      (⟨t₁.id, cursor, d₁⟩ ::
        (pack_block cfg (t₂ :: ts) (cursor + d₁ + b) (remaining - d₁ - b)
          (if (sc + 1) % cfg.sessions_until_long_break = 0 then 0 else sc + 1)).1,
       (pack_block cfg (t₂ :: ts) (cursor + d₁ + b) (remaining - d₁ - b)
          (if (sc + 1) % cfg.sessions_until_long_break = 0 then 0 else sc + 1)).2) := by
    by_cases hmod : (sc + 1) % cfg.sessions_until_long_break = 0
    · have hb' : b = cfg.long_break_duration := by rw [hb, if_pos hmod]
      simp only [pack_block]
      rw [if_neg (show ¬ remaining < cfg.pomodoro_work_duration by omega), hd₁,
        if_pos hfit₁, if_neg (not_not_intro hmod),
        if_pos (show cfg.pomodoro_break_duration ≤ remaining - d₁ ∧ t₂ :: ts ≠ [] ∧
          cfg.long_break_duration ≤ remaining - d₁ from
          ⟨by omega, List.cons_ne_nil _ _, hlb⟩),
        if_pos hmod, hb']
    · have hb' : b = cfg.pomodoro_break_duration := by rw [hb, if_neg hmod]
      simp only [pack_block]
      rw [if_neg (show ¬ remaining < cfg.pomodoro_work_duration by omega), hd₁,
        if_pos hfit₁, if_pos hmod,
        if_pos (show cfg.pomodoro_break_duration ≤ remaining - d₁ ∧ t₂ :: ts ≠ [] ∧
          cfg.pomodoro_break_duration ≤ remaining - d₁ from
          ⟨by omega, List.cons_ne_nil _ _, by omega⟩),
        if_neg hmod, hb']
  refine ⟨key, ?_⟩
  obtain ⟨rest, hrest⟩ := pack_block_head cfg t₂ ts (cursor + d₁ + b)
    (remaining - d₁ - b) (if (sc + 1) % cfg.sessions_until_long_break = 0 then 0 else sc + 1)
    hw₂ (by rw [hd₂]; exact hfit₂)
  rw [key]
  simp [hrest, hd₂]

/-- C3 witness: the cadence theorem at the default configuration with
session counter 3: placing the 4th session triggers a long break of 15
minutes, so the next session starts at 540 + 30 + 15 = 585. -/
theorem pack_block_break_cadence_witness :
    (pack_block default_cfg
        [⟨1, "medium", none, none, some 30, none, 5⟩,
         ⟨2, "medium", none, none, some 40, none, 5⟩] 540 90 3).1.take 2
      = [⟨1, 540, 30⟩, ⟨2, 585, 40⟩] :=
  (pack_block_break_cadence default_cfg 540 90 3
    ⟨1, "medium", none, none, some 30, none, 5⟩
    ⟨2, "medium", none, none, some 40, none, 5⟩ [] 30 40 15
    (by decide) (by decide) (by decide) (by decide) (by decide)
    (by decide) (by decide) (by decide) (by decide)).2

/-! ## C5 -/

/-- C5 counterexample: two medium tasks due in 3 and 2 days have equal
weighted scores; the claimed tie-break by earlier due date would put
task 2 first, but _prioritize_for_productivity sorts by score alone with
a stable sort, so the input order [1, 2] is kept. -/
theorem prioritize_tie_not_broken_by_due_date :
    ((prioritize_for_productivity
        [⟨1, "medium", none, some 3, some 30, none, 5⟩,
         ⟨2, "medium", none, some 2, some 30, none, 5⟩] 0).map fun p => p.task.id)
      = [1, 2] ∧
    (prioritized_entry 0 ⟨1, "medium", none, some 3, some 30, none, 5⟩).priority_score =
      (prioritized_entry 0 ⟨2, "medium", none, some 2, some 30, none, 5⟩).priority_score := by
  decide

/-- C5 amended: _prioritize_for_productivity returns the same tasks
sorted descending by weighted priority score; equal-score ties are not
reordered by due date or category but keep their input order (the sort
is stable: any score-sorted pair of entries of the input stays in that
order in the output). -/
theorem prioritize_for_productivity_spec (tasks : List Task) (date : Int) :
    ((prioritize_for_productivity tasks date).map PrioritizedTask.task).Perm tasks ∧
    List.Sorted (fun a b : PrioritizedTask => b.priority_score ≤ a.priority_score)
      (prioritize_for_productivity tasks date) ∧
    ∀ e₁ e₂ : PrioritizedTask, e₂.priority_score ≤ e₁.priority_score →
      [e₁, e₂].Sublist (tasks.map (prioritized_entry date)) →
      [e₁, e₂].Sublist (prioritize_for_productivity tasks date) := by
  unfold prioritize_for_productivity
  refine ⟨?_, ?_, ?_⟩
  · have heq : (tasks.map (prioritized_entry date)).map PrioritizedTask.task = tasks := by
      rw [List.map_map]
      show List.map id tasks = tasks
      exact List.map_id tasks
    have hperm := (List.perm_insertionSort
      (fun a b : PrioritizedTask => b.priority_score ≤ a.priority_score)
      (tasks.map (prioritized_entry date))).map PrioritizedTask.task
    rw [heq] at hperm
    exact hperm
  · haveI : IsTotal PrioritizedTask
        (fun a b : PrioritizedTask => b.priority_score ≤ a.priority_score) :=
      ⟨fun a b => le_total b.priority_score a.priority_score⟩
    haveI : IsTrans PrioritizedTask
        (fun a b : PrioritizedTask => b.priority_score ≤ a.priority_score) :=
      ⟨fun _ _ _ hab hbc => le_trans hbc hab⟩
    exact List.sorted_insertionSort _ _
  · intro e₁ e₂ hle hsub
    exact List.sublist_insertionSort (List.pairwise_pair.mpr hle) hsub

/-- C5 witness: the stability clause applied to the two equal-score
entries of the counterexample input, which therefore survive in input
order in the sorted output. -/
theorem prioritize_for_productivity_spec_witness :
    [prioritized_entry 0 ⟨1, "medium", none, some 3, some 30, none, 5⟩,
     prioritized_entry 0 ⟨2, "medium", none, some 2, some 30, none, 5⟩].Sublist
      (prioritize_for_productivity
        [⟨1, "medium", none, some 3, some 30, none, 5⟩,
         ⟨2, "medium", none, some 2, some 30, none, 5⟩] 0) :=
  (prioritize_for_productivity_spec
      [⟨1, "medium", none, some 3, some 30, none, 5⟩,
       ⟨2, "medium", none, some 2, some 30, none, 5⟩] 0).2.2 _ _
    (by decide) (by decide)

/-! ## C7 -/

/-- Appending into one bucket permutes the flattened buckets by one new
element in front. -/
lemma flatten_modify_append (l : List (List Task)) (t : Task) (n : Nat) (h : n < l.length) :
    (l.modify (fun b => b ++ [t]) n).flatten.Perm (t :: l.flatten) := by
  obtain ⟨l₁, a, l₂, rfl, hlen, hmod⟩ := List.exists_of_modify (fun b => b ++ [t]) h
  rw [hmod]
  have hmid : (l₁.flatten ++ a) ++ t :: l₂.flatten |>.Perm
      (t :: ((l₁.flatten ++ a) ++ l₂.flatten)) := List.perm_middle
  simpa using hmid

/-- Empty buckets flatten to the empty list. -/
lemma flatten_replicate_nil (n : Nat) : (List.replicate n ([] : List Task)).flatten = [] := by
  induction n with
  | zero => rfl
  | succ n ih => simp [List.replicate_succ, ih]

/-- The round-robin loop distributes exactly the incoming tasks on top
of whatever the buckets already hold. -/
lemma distribute_loop_flatten_perm (days : Nat) (hd : 0 < days) :
    ∀ (ts : List Task) (buckets : List (List Task)) (i : Nat),
      buckets.length = days →
      (distribute_tasks_fallback_loop days buckets i ts).flatten.Perm
        (buckets.flatten ++ ts) := by
  intro ts
  induction ts with
  | nil =>
    intro buckets i hlen
    simp [distribute_tasks_fallback_loop]
  | cons t ts ih =>
    intro buckets i hlen
    simp only [distribute_tasks_fallback_loop]
    have hmem : i % days < buckets.length := by
      rw [hlen]; exact Nat.mod_lt _ hd
    have h2 := ih (buckets.modify (fun b => b ++ [t]) (i % days)) (i + 1)
      (by simp [hlen])
    refine h2.trans ?_
    refine ((flatten_modify_append buckets t (i % days) hmem).append_right ts).trans ?_
    exact List.perm_middle.symm

/-- Bucket membership is preserved while the loop keeps appending. -/
lemma distribute_loop_mem_preserved (days : Nat) :
    ∀ (ts : List Task) (buckets : List (List Task)) (i d : Nat) (x : Task),
      x ∈ buckets.getD d [] →
      x ∈ (distribute_tasks_fallback_loop days buckets i ts).getD d [] := by
  intro ts
  induction ts with
  | nil =>
    intro buckets i d x hx
    simpa [distribute_tasks_fallback_loop] using hx
  | cons t ts ih =>
    intro buckets i d x hx
    simp only [distribute_tasks_fallback_loop]
    refine ih _ _ _ _ ?_
    rw [List.getD_eq_getElem?_getD, List.getElem?_modify]
    rw [List.getD_eq_getElem?_getD] at hx
    cases h : buckets[d]? with
    | none => rw [h] at hx; simp at hx
    | some b =>
      rw [h] at hx
      by_cases hne : i % days = d
      · simp only [h, hne, Option.map_eq_map, Option.map_some, if_pos rfl, Option.getD_some]
        exact List.mem_append_left _ hx
      · simpa [h, hne] using hx

/-- Task i of the incoming list ends up in bucket (j + i) % days, where
j is the running index the loop starts from. -/
lemma distribute_loop_get (days : Nat) (hd : 0 < days) :
    ∀ (ts : List Task) (buckets : List (List Task)) (j : Nat),
      buckets.length = days →
      ∀ (i : Nat) (hi : i < ts.length),
        ts.get ⟨i, hi⟩ ∈
          (distribute_tasks_fallback_loop days buckets j ts).getD ((j + i) % days) [] := by
  intro ts
  induction ts with
  | nil =>
    intro buckets j hlen i hi
    exact absurd hi (by simp)
  | cons t ts ih =>
    intro buckets j hlen i hi
    cases i with
    | zero =>
      simp only [distribute_tasks_fallback_loop]
      refine distribute_loop_mem_preserved days ts _ _ _ _ ?_
      have hmem : j % days < buckets.length := by
        rw [hlen]; exact Nat.mod_lt _ hd
      rw [List.getD_eq_getElem?_getD, List.getElem?_modify]
      simp only [Nat.add_zero]
      cases h : buckets[j % days]? with
      | none =>
        rw [List.getElem?_eq_none_iff] at h
        omega
      | some b => simp [h]
    | succ i' =>
      simp only [distribute_tasks_fallback_loop]
      have hrec := ih (buckets.modify (fun b => b ++ [t]) (j % days)) (j + 1)
        (by simp [hlen]) i' (by simpa using Nat.lt_of_succ_lt_succ hi)
      have harith : j + 1 + i' = j + (i' + 1) := by omega
      rw [harith] at hrec
      exact hrec

/-- The round-robin fallback assigns task i to day i mod days and
distributes every task exactly once: the flattened buckets are a
permutation of the input. -/
lemma distribute_tasks_fallback_exactly_once (tasks : List Task) (days : Nat)
    (hd : 0 < days) :
    ((distribute_tasks_fallback tasks days).flatten).Perm tasks ∧
    ∀ (i : Nat) (hi : i < tasks.length),
      tasks.get ⟨i, hi⟩ ∈ (distribute_tasks_fallback tasks days).getD (i % days) [] := by
  constructor
  · have h := distribute_loop_flatten_perm days hd tasks (List.replicate days []) 0
      (by simp)
    rw [distribute_tasks_fallback] at *
    simpa [flatten_replicate_nil] using h
  · intro i hi
    have h := distribute_loop_get days hd tasks (List.replicate days []) 0 (by simp) i hi
    rw [distribute_tasks_fallback]
    simpa using h

/-- C7: whatever the external generator answers, multi-day distribution
ends up round-robin: the external day-index path is unreachable (json
is unbound in _distribute_tasks_across_days, so its parse step raises
on every call and the exception handler falls back), task i goes to day
i mod days, and every task is assigned exactly once (the flattened
buckets are a permutation of the input; for an empty input every day is
an empty bucket). -/
theorem distribute_tasks_across_days_round_robin (tasks : List Task) (days : Nat)
    (response : Option (List (List Int))) (hd : 0 < days) :
    ((distribute_tasks_across_days tasks days response).flatten).Perm tasks ∧
    ∀ (i : Nat) (hi : i < tasks.length),
      tasks.get ⟨i, hi⟩ ∈
        (distribute_tasks_across_days tasks days response).getD (i % days) [] := by
  unfold distribute_tasks_across_days
  by_cases hts : tasks = []
  · subst hts
    rw [if_pos rfl]
    refine ⟨by rw [flatten_replicate_nil], ?_⟩
    intro i hi
    exact absurd hi (by simp)
  · rw [if_neg hts]
    exact distribute_tasks_fallback_exactly_once tasks days hd

/-- C7 witness: the distribution theorem on three tasks over two days
with a would-be duplicating external response, which is ignored: the
flattened buckets are a permutation of the input and task index 1 lands
in day 1 mod 2 = 1. -/
theorem distribute_tasks_across_days_round_robin_witness :
    ((distribute_tasks_across_days
        [⟨1, "medium", none, none, none, none, 5⟩,
         ⟨2, "low", none, none, none, none, 5⟩,
         ⟨3, "high", none, none, none, none, 5⟩] 2 (some [[0], [0]])).flatten).Perm
      [⟨1, "medium", none, none, none, none, 5⟩,
       ⟨2, "low", none, none, none, none, 5⟩,
       ⟨3, "high", none, none, none, none, 5⟩] ∧
    ([⟨1, "medium", none, none, none, none, 5⟩,
      ⟨2, "low", none, none, none, none, 5⟩,
      ⟨3, "high", none, none, none, none, 5⟩] : List Task).get ⟨1, by decide⟩ ∈
      (distribute_tasks_across_days
        [⟨1, "medium", none, none, none, none, 5⟩,
         ⟨2, "low", none, none, none, none, 5⟩,
         ⟨3, "high", none, none, none, none, 5⟩] 2 (some [[0], [0]])).getD (1 % 2) [] :=
  ⟨(distribute_tasks_across_days_round_robin _ 2 (some [[0], [0]]) (by decide)).1,
   (distribute_tasks_across_days_round_robin _ 2 (some [[0], [0]]) (by decide)).2 1
     (by decide)⟩

/-! ## C10 -/

/-- The energy-aware loop emits one allocation per consumed task and
hands the rest back. -/
lemma energy_allocate_loop_length (preferred_times : List Nat) :
    ∀ (slots : List (Nat × Int)) (ts : List PrioritizedTask) (i : Nat),
      (energy_allocate_loop preferred_times slots ts i).1.length +
        (energy_allocate_loop preferred_times slots ts i).2.1.length = ts.length := by
  intro slots
  induction slots with
  | nil =>
    intro ts i
    simp [energy_allocate_loop]
  | cons s slots ih =>
    intro ts i
    cases ts with
    | nil => simp [energy_allocate_loop]
    | cons t ts =>
      obtain ⟨h, e⟩ := s
      simp only [energy_allocate_loop]
      split
      · split
        · have := ih ts (i + 1)
          simp only [List.length_cons]
          omega
        · exact ih (t :: ts) i
      · exact ih (t :: ts) i

/-- The preferred-time fallback loop emits exactly one allocation per
remaining task. -/
lemma energy_fallback_loop_length (preferred_times : List Nat) :
    ∀ (ts : List PrioritizedTask) (i : Nat),
      (energy_fallback_loop preferred_times ts i).length = ts.length := by
  intro ts
  induction ts with
  | nil => intro i; simp [energy_fallback_loop]
  | cons t ts ih => intro i; simp [energy_fallback_loop, ih]

/-- _allocate_energy_aware_times schedules every prioritized task
exactly once (energy-aware slots first, preferred-time fallback for the
rest). -/
lemma allocate_energy_aware_times_length (preferred_times : List Nat)
    (slots : List (Nat × Int)) (prioritized_tasks : List PrioritizedTask) :
    (allocate_energy_aware_times preferred_times slots prioritized_tasks).length =
      prioritized_tasks.length := by
  unfold allocate_energy_aware_times
  rw [List.length_append, energy_fallback_loop_length]
  exact energy_allocate_loop_length preferred_times _ prioritized_tasks 0

/-- Break injection keeps exactly one ScheduleTask row per incoming
allocation. -/
lemma inject_breaks_task_rows (cfg : Cfg) :
    ∀ (blocks : List EnergyAllocation) (sc : Nat),
      ((inject_breaks_loop cfg sc blocks).filterMap fun b =>
          match b with
          | ProductivityBlock.task t st d _ => some (⟨t.id, st, d⟩ : ScheduleTask)
          | ProductivityBlock.brk _ _ => none).length = blocks.length := by
  intro blocks
  induction blocks with
  | nil => intro sc; simp [inject_breaks_loop]
  | cons b rest ih =>
    intro sc
    cases rest with
    | nil => simp [inject_breaks_loop]
    | cons c rest2 =>
      simp only [inject_breaks_loop, List.filterMap_cons]
      simpa using ih (sc + 1)

/-- C10: when the productivity tier fetches its own task set,
_get_productivity_tasks keeps at most the top 10 enhanced pending
tasks, and the schedule the tier then produces for them has at most 10
task rows. -/
theorem productivity_tier_at_most_ten (base_tasks : List Task) (active_goals : List Goal)
    (date : Int) (cfg : Cfg) (preferred_times : List Nat) (slots : List (Nat × Int)) :
    (get_productivity_tasks base_tasks active_goals date).length ≤ 10 ∧
    (generate_productivity_optimized_schedule cfg date preferred_times slots
        (get_productivity_tasks base_tasks active_goals date)).tasks.length ≤ 10 := by
  have h10 : (get_productivity_tasks base_tasks active_goals date).length ≤ 10 := by
    unfold get_productivity_tasks
    simp [List.length_take]
  refine ⟨h10, ?_⟩
  unfold generate_productivity_optimized_schedule
  split
  · simp
  · unfold create_productivity_schedule inject_productivity_breaks
    simp only []
    rw [inject_breaks_task_rows, allocate_energy_aware_times_length]
    unfold prioritize_for_productivity
    calc (List.insertionSort
          (fun a b : PrioritizedTask => b.priority_score ≤ a.priority_score)
          ((get_productivity_tasks base_tasks active_goals date).map
            (prioritized_entry date))).length
        = (get_productivity_tasks base_tasks active_goals date).length := by
          rw [(List.perm_insertionSort _ _).length_eq, List.length_map]
      _ ≤ 10 := h10

end AIM20
